import Mathlib

/-
Formal model of the flow-field inference subsystem of the fluid-simulator
backend: the PINN flow solver (`src/app/api/services/pinn/pinn_model.py`),
the simulation orchestration (`src/app/api/services/simulation_service.py`)
and the flow endpoints (`src/app/api/v1/simulations/simulation_endpoints.py`).

Conventions of the embedding:
* float32 arithmetic is modelled exactly over the rationals `ℚ`;
  comparisons of a euclidean norm against a nonnegative threshold t are
  embedded as comparisons of the squared norm against t^2;
* numpy arrays / torch tensors are modelled as (nested) lists;
* transcendental primitives (sin, cos, the SiLU activation) and external
  library calls (trimesh loading, pyfqmr decimation) have no exact rational
  counterpart and are abstracted as function parameters, preserving the
  control flow and the data flow of the source around them.
-/

namespace FluidBackend

/-- 3-component vector of rationals (a float32 triple in the source). -/
structure V3 where
  x : ℚ
  y : ℚ
  z : ℚ
deriving DecidableEq, Repr

def vzero : V3 := ⟨0, 0, 0⟩

def vadd (a b : V3) : V3 := ⟨a.x + b.x, a.y + b.y, a.z + b.z⟩

def smulV (c : ℚ) (v : V3) : V3 := ⟨c * v.x, c * v.y, c * v.z⟩

/-- Squared euclidean norm of a 3-vector. -/
def sqNormV3 (v : V3) : ℚ := v.x ^ 2 + v.y ^ 2 + v.z ^ 2

/-- Mesh bounds in trimesh layout: row 0 the min corner, row 1 the max corner. -/
structure MeshBounds where
  lo : V3
  hi : V3
deriving DecidableEq, Repr

/-- np.linspace a b n: n evenly spaced samples from a to b, endpoints included
(n = 1 gives [a], n = 0 gives the empty array). -/
def linspace (a b : ℚ) (n : Nat) : List ℚ :=
  match n with
  | 0 => []
  | 1 => [a]
  | m + 2 => (List.range (m + 2)).map (fun i : Nat => a + (b - a) * (i : ℚ) / (m + 1))

/-- The dictionary returned by create_flow_domain. -/
structure FlowDomain where
  grid_points : List V3
  grid_shape : List Nat
  domain_bounds : List (ℚ × ℚ)
  coords_x : List ℚ
  coords_y : List ℚ
  coords_z : List ℚ
deriving DecidableEq, Repr

def paddingConst : ℚ := 3 / 10

/-- PINNFlowSolver.create_flow_domain (pinn_model.py lines 271-293);
FlowSimulationEngine.create_flow_domain (simulation_endpoints.py lines
135-163) is the identical computation.  np.meshgrid(x, y, z,
indexing="ij") followed by stacking the C-order flattened component grids
yields the Cartesian product of the axis coordinate arrays in axis-major
order (x outermost, z innermost); it is embedded in exactly that form. -/
def create_flow_domain (bounds : MeshBounds) (resolution : Nat) : FlowDomain :=
  let dbx : ℚ × ℚ := (bounds.lo.x - paddingConst, bounds.hi.x + paddingConst)
  let dby : ℚ × ℚ := (bounds.lo.y - paddingConst, bounds.hi.y + paddingConst)
  let dbz : ℚ × ℚ := (bounds.lo.z - paddingConst, bounds.hi.z + paddingConst)
  let xs := linspace dbx.1 dbx.2 resolution
  let ys := linspace dby.1 dby.2 resolution
  let zs := linspace dbz.1 dbz.2 resolution
  { grid_points := xs.flatMap (fun xi => ys.flatMap (fun yi => zs.map (fun zi => V3.mk xi yi zi)))
    grid_shape := [resolution, resolution, resolution]
    domain_bounds := [dbx, dby, dbz]
    coords_x := xs
    coords_y := ys
    coords_z := zs }

/-- The slice of physics_config that _run_pinn_simulation reads. -/
structure PhysicsConfig where
  resolution : Option Nat
  flow_velocity : Option ℚ
  viscosity : Option ℚ
deriving DecidableEq, Repr

/-- physics_config.get("resolution", 4) in SimulationService._run_pinn_simulation
(simulation_service.py line 167): absent resolution defaults to 4, a present
value is passed through unchanged. -/
def extract_resolution (cfg : PhysicsConfig) : Nat := cfg.resolution.getD 4

/-- The domain-construction step of _run_pinn_simulation / predict_flow_field:
the extracted resolution reaches create_flow_domain with no validation in
between (simulation_service.py lines 151-181, pinn_model.py lines 176-181). -/
def pinn_domain_step (bounds : MeshBounds) (cfg : PhysicsConfig) : FlowDomain :=
  create_flow_domain bounds (extract_resolution cfg)

/- ### helper lemmas about linspace and the grid -/

theorem linspace_length (a b : ℚ) (n : Nat) : (linspace a b n).length = n := by
  match n with
  | 0 => rfl
  | 1 => rfl
  | m + 2 =>
      have h : linspace a b (m + 2)
          = (List.range (m + 2)).map (fun i : Nat => a + (b - a) * (i : ℚ) / (m + 1)) := rfl
      rw [h, List.length_map, List.length_range]

theorem length_flatMap_const {α β : Type} (l : List α) (f : α → List β) (c : Nat)
    (h : ∀ a ∈ l, (f a).length = c) : (l.flatMap f).length = l.length * c := by
  induction l with
  | nil => simp
  | cons a tl ih =>
      rw [List.flatMap_cons, List.length_append, h a (by simp),
        ih (fun x hx => h x (by simp [hx])), List.length_cons]
      ring

theorem grid_points_length (bounds : MeshBounds) (r : Nat) :
    (create_flow_domain bounds r).grid_points.length = r ^ 3 := by
  show (List.flatMap _ _).length = r ^ 3
  rw [length_flatMap_const _ _ (r * r), linspace_length]
  · ring
  · intro a _
    rw [length_flatMap_const _ _ r, linspace_length]
    intro b _
    rw [List.length_map, linspace_length]

/- ### C1 -/

def demoBounds : MeshBounds := ⟨⟨-1, -1, -1⟩, ⟨1, 1, 1⟩⟩

/-- C1, counterexample.  The claim says a request with resolution 0 or 1 is
rejected with a ValidationError before any domain computation runs.  In the
code no validation exists: the domain-construction step of the PINN pipeline
runs to completion for resolution 0 (returning a domain with an empty grid)
and for resolution 1 (returning a single-point grid). -/
theorem c1_counterexample_res_zero_one_reach_domain :
    (pinn_domain_step demoBounds ⟨some 0, none, none⟩).grid_points = []
  ∧ (pinn_domain_step demoBounds ⟨some 0, none, none⟩).grid_shape = [0, 0, 0]
  ∧ (pinn_domain_step demoBounds ⟨some 1, none, none⟩).grid_points
      = [⟨-13/10, -13/10, -13/10⟩] := by
  refine ⟨rfl, rfl, ?_⟩
  simp only [pinn_domain_step, extract_resolution, create_flow_domain, linspace,
    demoBounds, paddingConst, Option.getD, List.flatMap_cons, List.flatMap_nil,
    List.map_cons, List.map_nil, List.append_nil, List.cons.injEq, V3.mk.injEq,
    and_true]
  norm_num

/-- C1, amended: the code performs no validation of the resolution at all.
For every resolution (including 0 and 1) the domain builder runs and returns
a grid of exactly resolution³ points with grid_shape
[resolution, resolution, resolution]; an absent resolution defaults to 4 and
a present one is passed through unchanged — never clamped. -/
theorem c1_amended_resolution_unvalidated_unclamped
    (bounds : MeshBounds) (cfg : PhysicsConfig) :
    (pinn_domain_step bounds cfg).grid_shape
      = [extract_resolution cfg, extract_resolution cfg, extract_resolution cfg]
  ∧ (pinn_domain_step bounds cfg).grid_points.length = extract_resolution cfg ^ 3
  ∧ extract_resolution { cfg with resolution := none } = 4
  ∧ ∀ r : Nat, extract_resolution { cfg with resolution := some r } = r := by
  exact ⟨rfl, grid_points_length bounds _, rfl, fun _ => rfl⟩

/- ### C2 -/

def extent_x (b : MeshBounds) : ℚ := b.hi.x - b.lo.x

/-- Lower x corner of the padded domain produced by the domain builder
(the resolution plays no role in the padding; 2 is used to instantiate). -/
def domain_lo_x (b : MeshBounds) : ℚ :=
  ((create_flow_domain b 2).domain_bounds.getD 0 (0, 0)).1

/-- Padding amount applied by the domain builder on the lower x side. -/
def pad_applied_x (b : MeshBounds) : ℚ := b.lo.x - domain_lo_x b

theorem pad_applied_x_const (b : MeshBounds) : pad_applied_x b = 3 / 10 := by
  show b.lo.x - (b.lo.x - paddingConst) = 3 / 10
  rw [paddingConst]; ring

def boundsUnit : MeshBounds := ⟨⟨0, 0, 0⟩, ⟨1, 1, 1⟩⟩

def boundsWide : MeshBounds := ⟨⟨0, 0, 0⟩, ⟨2, 1, 1⟩⟩

/-- C2, counterexample.  The claim says the padding on each axis is a fraction
of the mesh's own extent along that axis.  The code uses the fixed absolute
constant 0.3: meshes of x-extent 1 and x-extent 2 receive the same padding
3/10, so no single fraction f with padding = f · extent exists. -/
theorem c2_counterexample_padding_not_proportional :
    pad_applied_x boundsUnit = 3/10 ∧ pad_applied_x boundsWide = 3/10
  ∧ extent_x boundsUnit = 1 ∧ extent_x boundsWide = 2
  ∧ ¬ ∃ f : ℚ, ∀ b : MeshBounds, pad_applied_x b = f * extent_x b := by
  have e1 : extent_x boundsUnit = 1 := by norm_num [extent_x, boundsUnit]
  have e2 : extent_x boundsWide = 2 := by norm_num [extent_x, boundsWide]
  refine ⟨pad_applied_x_const _, pad_applied_x_const _, e1, e2, ?_⟩
  rintro ⟨f, hf⟩
  have h1 := hf boundsUnit
  have h2 := hf boundsWide
  rw [pad_applied_x_const] at h1 h2
  rw [e1] at h1
  rw [e2] at h2
  linarith

/-- C2, amended: the domain builder pads each axis by the fixed absolute
constant 0.3 on both sides (independent of the mesh extent), and consequently
the padded domain bound strictly exceeds the raw mesh bound on every axis. -/
theorem c2_amended_fixed_padding_strictly_contains (b : MeshBounds) (r : Nat) :
    (create_flow_domain b r).domain_bounds
      = [(b.lo.x - 3/10, b.hi.x + 3/10),
         (b.lo.y - 3/10, b.hi.y + 3/10),
         (b.lo.z - 3/10, b.hi.z + 3/10)]
  ∧ (b.lo.x - 3/10 < b.lo.x ∧ b.hi.x < b.hi.x + 3/10)
  ∧ (b.lo.y - 3/10 < b.lo.y ∧ b.hi.y < b.hi.y + 3/10)
  ∧ (b.lo.z - 3/10 < b.lo.z ∧ b.hi.z < b.hi.z + 3/10) := by
  refine ⟨rfl, ⟨by linarith, by linarith⟩, ⟨by linarith, by linarith⟩,
    ⟨by linarith, by linarith⟩⟩

/- ### C3: geometry ingestion -/

/-- The attributes of a loaded trimesh.Trimesh object that
process_geometry_file reads.  Attribute access (vertices, faces,
vertex_normals, bounds, centroid) is modelled as total field access. -/
structure Mesh where
  vertices : List V3
  faces : List (Nat × Nat × Nat)
  vertex_normals : List V3
  bounds : MeshBounds
  centroid : V3
deriving DecidableEq, Repr

/-- Outcome of trimesh.load: a Scene (whose dump(concatenate=True) may or may
not be a Trimesh, hence Option), a single Trimesh, or some other object. -/
inductive LoadedGeometry where
  | scene (dumped : Option Mesh)
  | tri (m : Mesh)
  | other
deriving DecidableEq, Repr

/-- The dictionary returned by SimulationService.process_geometry_file. -/
structure GeometryData where
  vertices : List V3
  faces : List (Nat × Nat × Nat)
  normals : List V3
  bounds : MeshBounds
  centroid : V3
deriving DecidableEq, Repr

/-- SimulationService.process_geometry_file (simulation_service.py lines
307-365).  `loaded = none` models trimesh.load raising; `simplify` models the
pyfqmr quadric-decimation call, invoked only when max_faces < len(mesh.faces);
the flatten()/tolist() conversions of the returned arrays are elided (lists
are kept structured).  Every exception is re-raised as the generic
"Geometry file processing failed" message; the two error strings below record
which internal path raised. -/
def process_geometry_file (loaded : Option LoadedGeometry)
    (max_faces : Option Nat) (simplify : Mesh → Mesh) :
    Except String GeometryData :=
  match loaded with
  | none => .error "Geometry file processing failed: load raised"
  | some lg =>
    let m? : Option Mesh :=
      match lg with
      | .scene d => d
      | .tri m => some m
      | .other => none
    match m? with
    | none => .error "Geometry file processing failed: The file did not contain valid 3D geometry."
    | some mesh0 =>
      let mesh :=
        match max_faces with
        | some mf => if mf < mesh0.faces.length then simplify mesh0 else mesh0
        | none => mesh0
      .ok { vertices := mesh.vertices
            faces := mesh.faces
            normals := mesh.vertex_normals
            bounds := mesh.bounds
            centroid := mesh.centroid }

/-- A parsed mesh with three vertices and zero faces. -/
def zeroFaceMesh : Mesh :=
  { vertices := [⟨0, 0, 0⟩, ⟨1, 0, 0⟩, ⟨0, 1, 0⟩]
    faces := []
    vertex_normals := [vzero, vzero, vzero]
    bounds := ⟨⟨0, 0, 0⟩, ⟨1, 1, 0⟩⟩
    centroid := ⟨1/3, 1/3, 0⟩ }

/-- C3, counterexample.  The claim says a parsed mesh with zero faces makes
ingestion fail with a GeometryError before any domain or SDF computation.
The code checks only that loading produced a Trimesh object and never
inspects the face count: at the default max_faces = 25 a parsed zero-face
mesh is returned successfully, with an empty face list, to the caller that
feeds the flow pipeline. -/
theorem c3_counterexample_zero_faces_returned_ok :
    process_geometry_file (some (.tri zeroFaceMesh)) (some 25) id
      = .ok { vertices := zeroFaceMesh.vertices
              faces := []
              normals := zeroFaceMesh.vertex_normals
              bounds := zeroFaceMesh.bounds
              centroid := zeroFaceMesh.centroid } := rfl

/-- C3, amended: geometry ingestion rejects only inputs that do not load to a
mesh object; a parsed mesh with zero faces is not rejected — the quadric
decimation is skipped (max_faces < 0 is false) and the mesh is returned
successfully with an empty face list, so zero-face geometry can reach the
flow pipeline. -/
theorem c3_amended_zero_faces_pass_through (mesh : Mesh) (mf : Nat)
    (simplify : Mesh → Mesh) (hf : mesh.faces = []) :
    process_geometry_file (some (.tri mesh)) (some mf) simplify
      = .ok { vertices := mesh.vertices
              faces := []
              normals := mesh.vertex_normals
              bounds := mesh.bounds
              centroid := mesh.centroid } := by
  simp [process_geometry_file, hf]

/-- C3, witness for the amended theorem at a concrete zero-face mesh. -/
theorem c3_amended_witness :
    process_geometry_file (some (.tri zeroFaceMesh)) (some 7) id
      = .ok { vertices := zeroFaceMesh.vertices
              faces := []
              normals := zeroFaceMesh.vertex_normals
              bounds := zeroFaceMesh.bounds
              centroid := zeroFaceMesh.centroid } :=
  c3_amended_zero_faces_pass_through zeroFaceMesh 7 id rfl

/- ### C9: simulation record lifecycle -/

inductive SimStatus where
  | pending
  | running
  | completed
  | failed
deriving DecidableEq, Repr

/-- The mutable simulation record stored in active_simulations; the metadata
fields (id, name, geometry, physics_config, platform, timestamps) are elided.
ρ is the type of a platform runner's result payload. -/
structure SimRecord (ρ : Type) where
  status : SimStatus
  results : Option ρ
  error : Option String
  progress : Nat
deriving DecidableEq, Repr

/-- SimulationService.create_simulation (simulation_service.py lines 96-118):
the freshly stored record is PENDING with results = None, error = None,
progress = 0. -/
def create_simulation (ρ : Type) : SimRecord ρ :=
  { status := .pending, results := none, error := none, progress := 0 }

/-- SimulationService._run_simulation (simulation_service.py lines 120-149):
sets the record RUNNING, executes the selected platform runner — whose
outcome, a result value or a raised exception message, is the `outcome`
parameter — then on success stores the complete results with status COMPLETED
and progress 100; on any raised error stores status FAILED, the error
message and progress 0, leaving the results field untouched. -/
def run_simulation {ρ : Type} (sim : SimRecord ρ)
    (outcome : Except String ρ) : SimRecord ρ :=
  let simRunning := { sim with status := SimStatus.running }
  match outcome with
  | .ok r => { simRunning with status := .completed, results := some r, progress := 100 }
  | .error e => { simRunning with status := .failed, error := some e, progress := 0 }

/-- C9 (confirmed): for a freshly created simulation record, if the run's
phases raise an error the final record is FAILED with that error message and
its results field is still None, exactly as before the run started; results
is set only by a fully successful run, to that run's complete output, and in
every outcome the record either holds the complete successful output with
status COMPLETED or holds no results at all. -/
theorem c9_no_partial_results {ρ : Type} (outcome : Except String ρ) :
    (∀ e : String, outcome = .error e →
      run_simulation (create_simulation ρ) outcome
        = { status := .failed, results := none, error := some e, progress := 0 })
  ∧ (∀ r : ρ, outcome = .ok r →
      run_simulation (create_simulation ρ) outcome
        = { status := .completed, results := some r, error := none, progress := 100 })
  ∧ ((run_simulation (create_simulation ρ) outcome).results = none
      ∨ ∃ r : ρ, outcome = .ok r
          ∧ (run_simulation (create_simulation ρ) outcome).status = .completed
          ∧ (run_simulation (create_simulation ρ) outcome).results = some r) := by
  refine ⟨?_, ?_, ?_⟩
  · rintro e rfl
    rfl
  · rintro r rfl
    rfl
  · match outcome with
    | .ok r => exact Or.inr ⟨r, rfl, rfl, rfl⟩
    | .error e => exact Or.inl rfl

/-- C9, witness: a failed run at a concrete outcome keeps results = None. -/
theorem c9_witness :
    run_simulation (create_simulation Nat) (.error "PINN simulation error: boom")
      = { status := .failed, results := none,
          error := some "PINN simulation error: boom", progress := 0 } :=
  (c9_no_partial_results (ρ := Nat) (.error "PINN simulation error: boom")).1
    "PINN simulation error: boom" rfl

/- ### C4: batched model evaluation (FluidFlowPINN.forward, pinn_model.py
lines 9-63, and the batching loop of predict_flow_field, lines 216-228) -/

def dotQ (a b : List ℚ) : ℚ := ((a.zip b).map (fun q => q.1 * q.2)).sum

def addV (a b : List ℚ) : List ℚ := (a.zip b).map (fun q => q.1 + q.2)

/-- One nn.Linear layer: weight rows (one per output unit) and bias.
On a batch X it computes X @ weight.T + bias, whose row i is
weight · (row i of X) + bias — it depends on no other row. -/
structure LinearLayer where
  weight : List (List ℚ)
  bias : List ℚ
deriving Repr

/-- Parameters of FluidFlowPINN.  The frozen Fourier projection B (3×F) is
stored by columns; the transcendental primitives 2π, sin, cos and the SiLU
activation have no rational counterpart and are abstract fields — the
batching equivalence below holds for every choice of them. -/
structure NetParams where
  fourierCols : List (List ℚ)
  twoPi : ℚ
  sinQ : ℚ → ℚ
  cosQ : ℚ → ℚ
  silu : ℚ → ℚ
  hiddenLayers : List LinearLayer
  headLayer : LinearLayer

def linRow (L : LinearLayer) (v : List ℚ) : List ℚ :=
  addV (L.weight.map (fun wr => dotQ wr v)) L.bias

/-- fourier_encoding on one coordinate row: x_proj = 2π · x @ B, then
cat(sin x_proj, cos x_proj). -/
def fourier_encoding_row (p : NetParams) (x : List ℚ) : List ℚ :=
  let proj := p.fourierCols.map (fun col => p.twoPi * dotQ x col)
  proj.map p.sinQ ++ proj.map p.cosQ

/-- network_input for one point: cat([x, fourier_feats, flow_conditions]). -/
def network_input_row (p : NetParams) (xc : List ℚ × List ℚ) : List ℚ :=
  xc.1 ++ fourier_encoding_row p xc.1 ++ xc.2

/-- FluidFlowPINN.forward restricted to a single input row: the Sequential
stack Linear→SiLU (repeated) ending in the 4-unit linear head. -/
def forward_row (p : NetParams) (xc : List ℚ × List ℚ) : List ℚ :=
  linRow p.headLayer
    (p.hiddenLayers.foldl (fun v L => (linRow L v).map p.silu)
      (network_input_row p xc))

def linBatch (L : LinearLayer) (X : List (List ℚ)) : List (List ℚ) :=
  X.map (linRow L)

def siluBatch (p : NetParams) (X : List (List ℚ)) : List (List ℚ) :=
  X.map (List.map p.silu)

/-- FluidFlowPINN.forward on a whole batch (x, flow_conditions), batch rows
kept as (point, condition-row) pairs exactly as the two tensors are sliced in
lockstep by the prediction loop. -/
def forward (p : NetParams) (batch : List (List ℚ × List ℚ)) : List (List ℚ) :=
  linBatch p.headLayer
    (p.hiddenLayers.foldl (fun X L => siluBatch p (linBatch L X))
      (batch.map (network_input_row p)))

/-- The layer stack applied to a batch equals the per-row layer stack mapped
over the rows: every layer of the network is row-independent. -/
theorem hidden_stack_rowwise (p : NetParams) (layers : List LinearLayer)
    (X : List (List ℚ)) :
    layers.foldl (fun X L => siluBatch p (linBatch L X)) X
      = X.map (fun v => layers.foldl (fun v L => (linRow L v).map p.silu) v) := by
  induction layers generalizing X with
  | nil => simp
  | cons L ls ih =>
      rw [List.foldl_cons, ih]
      simp [siluBatch, linBatch, List.map_map, Function.comp]

theorem forward_eq_map_forward_row (p : NetParams)
    (batch : List (List ℚ × List ℚ)) :
    forward p batch = batch.map (forward_row p) := by
  rw [forward, hidden_stack_rowwise]
  simp [linBatch, forward_row, List.map_map, Function.comp]

/-- Slicing a list into consecutive blocks of size bs, as
range(0, len, bs) with xs[i:i+bs] does; the fuel argument (instantiated with
the list length) only drives termination. -/
def chunksOfFuel {α : Type} (bs : Nat) : Nat → List α → List (List α)
  | 0, _ => []
  | _, [] => []
  | fuel + 1, x :: xs => ((x :: xs).take bs) :: chunksOfFuel bs fuel ((x :: xs).drop bs)

def chunksOf {α : Type} (bs : Nat) (xs : List α) : List (List α) :=
  chunksOfFuel bs xs.length xs

/-- The batched prediction loop of predict_flow_field (lines 216-228): slice
the grid points and their per-point condition rows into consecutive blocks of
batch_size, run the model on each block, and concatenate the block outputs. -/
def predict_in_batches (p : NetParams) (batch_size : Nat)
    (inputs : List (List ℚ × List ℚ)) : List (List ℚ) :=
  ((chunksOf batch_size inputs).map (forward p)).flatten

theorem flatten_chunksOfFuel {α : Type} (bs : Nat) (hbs : 0 < bs) :
    ∀ (fuel : Nat) (xs : List α), xs.length ≤ fuel →
      (chunksOfFuel bs fuel xs).flatten = xs := by
  intro fuel
  induction fuel with
  | zero =>
      intro xs hxs
      rw [Nat.le_zero] at hxs
      rw [List.length_eq_zero] at hxs
      subst hxs
      rfl
  | succ n ih =>
      intro xs hxs
      match xs with
      | [] => rfl
      | x :: tl =>
          show ((x :: tl).take bs ++ (chunksOfFuel bs n ((x :: tl).drop bs)).flatten) = x :: tl
          rw [ih ((x :: tl).drop bs) ?_, List.take_append_drop]
          rw [List.length_drop]
          omega

theorem flatten_chunksOf {α : Type} (bs : Nat) (hbs : 0 < bs) (xs : List α) :
    (chunksOf bs xs).flatten = xs :=
  flatten_chunksOfFuel bs hbs xs.length xs le_rfl

/-- C4 (confirmed): for every model parameters, every positive batch size and
every list of (grid point, condition row) inputs, evaluating the model over
the inputs in fixed-size batches and concatenating the per-batch outputs
yields, row for row, exactly the same (u,v,w,p) outputs as evaluating all
inputs in one call — for every choice of the transcendental primitives, i.e.
under exact arithmetic, because every layer acts row-independently. -/
theorem c4_batched_prediction_equals_single_call (p : NetParams)
    (batch_size : Nat) (inputs : List (List ℚ × List ℚ))
    (hbs : 0 < batch_size) :
    predict_in_batches p batch_size inputs = forward p inputs := by
  rw [predict_in_batches, forward_eq_map_forward_row]
  have h : (chunksOf batch_size inputs).map (forward p)
      = (chunksOf batch_size inputs).map (List.map (forward_row p)) := by
    apply List.map_congr_left
    intro c _
    exact forward_eq_map_forward_row p c
  rw [h, ← List.map_flatten, flatten_chunksOf batch_size hbs]

/-- A small concrete network instance used as the C4 witness input. -/
def wParams : NetParams :=
  { fourierCols := [[1, 0, 0], [0, 1, 0]]
    twoPi := 6
    sinQ := id
    cosQ := id
    silu := id
    hiddenLayers := [⟨[[1, 0, 0, 0, 0, 0, 0, 0, 0, 0, 0]], [0]⟩]
    headLayer := ⟨[[1], [2], [3], [4]], [0, 0, 0, 0]⟩ }

def wInputs : List (List ℚ × List ℚ) :=
  [([1, 0, 0], [1, 0, 0, 1/100]),
   ([0, 1, 0], [1, 0, 0, 1/100]),
   ([0, 0, 1], [1, 0, 0, 1/100])]

/-- C4, witness: the batching equivalence at batch size 2 on three concrete
inputs through a concrete network. -/
theorem c4_witness :
    0 < 2 ∧ predict_in_batches wParams 2 wInputs = forward wParams wInputs :=
  ⟨by norm_num,
   c4_batched_prediction_equals_single_call wParams 2 wInputs (by norm_num)⟩

/- ### C7: reshape round-trip and canonical grid ordering -/

/-- np.reshape of a flat C-order array to shape (R, R, R): R planes of R rows
of R entries, innermost axis varying fastest. -/
def reshape3 {α : Type} (R : Nat) (flat : List α) : List (List (List α)) :=
  chunksOf R (chunksOf R flat)

/-- ndarray.flatten() of an (R, R, R) array in C order. -/
def flatten3 {α : Type} (g : List (List (List α))) : List α :=
  g.flatten.flatten

/-- predictions[:, 3].reshape(grid_shape) followed by
pressure_field.flatten().tolist() in predict_flow_field (lines 230-269). -/
def pressure_field_output (R : Nat) (flatP : List ℚ) : List ℚ :=
  flatten3 (reshape3 R flatP)

/-- sdf.reshape(grid_shape) in _compute_signed_distance_field (line 333)
followed by sdf.cpu().numpy().flatten().tolist() in the result (line 268). -/
def sdf_output (R : Nat) (flatS : List ℚ) : List ℚ :=
  flatten3 (reshape3 R flatS)

theorem getD_flatMap_const {α β : Type} (xs : List α) (f : α → List β) (m : Nat)
    (hm : ∀ a ∈ xs, (f a).length = m) (d : β) (d0 : α) :
    ∀ i : Nat, i < xs.length * m →
      (xs.flatMap f).getD i d = (f (xs.getD (i / m) d0)).getD (i % m) d := by
  induction xs with
  | nil => intro i hi; simp at hi
  | cons a tl ih =>
      intro i hi
      rcases Nat.eq_zero_or_pos m with hm0 | hm0
      · rw [hm0, Nat.mul_zero] at hi; exact absurd hi (Nat.not_lt_zero i)
      rw [List.flatMap_cons]
      rcases Nat.lt_or_ge i m with hlt | hge
      · rw [List.getD_append _ _ _ _ (by rw [hm a (by simp)]; exact hlt),
          Nat.div_eq_of_lt hlt, Nat.mod_eq_of_lt hlt, List.getD_cons_zero]
      · obtain ⟨j, rfl⟩ : ∃ j, i = j + m := ⟨i - m, by omega⟩
        rw [List.getD_append_right _ _ _ _ (by rw [hm a (by simp)]; exact hge),
          hm a (by simp), Nat.add_sub_cancel,
          Nat.add_div_right j hm0, Nat.add_mod_right j m, List.getD_cons_succ]
        apply ih (fun x hx => hm x (by simp [hx]))
        rw [List.length_cons, Nat.succ_mul] at hi
        omega

theorem inner_plane_length (b : MeshBounds) (R : Nat) (xi : ℚ) :
    ((linspace (b.lo.y - paddingConst) (b.hi.y + paddingConst) R).flatMap
      (fun yi => (linspace (b.lo.z - paddingConst) (b.hi.z + paddingConst) R).map
        (fun zi => V3.mk xi yi zi))).length = R * R := by
  rw [length_flatMap_const _ _ R, linspace_length]
  intro y _
  rw [List.length_map, linspace_length]

/-- The flat grid_points lattice at index i holds the point
(x[i / R²], y[(i / R) mod R], z[i mod R]): the axis-major (C-order) layout. -/
theorem grid_point_index_law (b : MeshBounds) (R : Nat) (i : Nat)
    (hi : i < R ^ 3) :
    (create_flow_domain b R).grid_points.getD i vzero
      = ⟨(create_flow_domain b R).coords_x.getD (i / (R * R)) 0,
         (create_flow_domain b R).coords_y.getD (i / R % R) 0,
         (create_flow_domain b R).coords_z.getD (i % R) 0⟩ := by
  have hR : 0 < R := by
    rcases Nat.eq_zero_or_pos R with h0 | h
    · rw [h0] at hi; simp at hi
    · exact h
  have hRR : 0 < R * R := Nat.mul_pos hR hR
  show (List.flatMap _ _).getD i vzero = _
  rw [getD_flatMap_const _ _ (R * R) (fun xi _ => inner_plane_length b R xi) vzero 0 i
      (by rw [linspace_length]; calc i < R ^ 3 := hi
                                     _ = R * (R * R) := by ring)]
  rw [getD_flatMap_const _ _ R
      (fun yi _ => by rw [List.length_map, linspace_length]) vzero 0 (i % (R * R))
      (by rw [linspace_length]; exact Nat.mod_lt i hRR)]
  have hz : i % (R * R) % R < (linspace (b.lo.z - paddingConst) (b.hi.z + paddingConst) R).length := by
    rw [linspace_length]
    exact Nat.mod_lt _ hR
  rw [List.getD_eq_getElem _ _ (by rw [List.length_map]; exact hz), List.getElem_map,
    ← List.getD_eq_getElem _ (0 : ℚ) hz]
  rw [Nat.mod_mul_right_div_self, Nat.mod_mod_of_dvd i ⟨R, rfl⟩]
  rfl

/-- C7 (confirmed): for every positive resolution R, reshaping a flat
per-point array to the R×R×R grid shape in the domain builder's axis-major
order and reflattening in that same order reproduces the original flat array
exactly; in particular the flattened pressure_field and sdf arrays of the
result are identical to the flat per-point arrays they were reshaped from,
and the grid_points lattice itself is laid out in that same axis-major
order (point i = (x[i / R²], y[(i / R) mod R], z[i mod R])). -/
theorem c7_reshape_round_trip (R : Nat) (hR : 0 < R) :
    (∀ flat : List ℚ, flatten3 (reshape3 R flat) = flat)
  ∧ (∀ flatP : List ℚ, pressure_field_output R flatP = flatP)
  ∧ (∀ flatS : List ℚ, sdf_output R flatS = flatS)
  ∧ (∀ (b : MeshBounds) (i : Nat), i < R ^ 3 →
      (create_flow_domain b R).grid_points.getD i vzero
        = ⟨(create_flow_domain b R).coords_x.getD (i / (R * R)) 0,
           (create_flow_domain b R).coords_y.getD (i / R % R) 0,
           (create_flow_domain b R).coords_z.getD (i % R) 0⟩) := by
  have hrt : ∀ flat : List ℚ, flatten3 (reshape3 R flat) = flat := by
    intro flat
    rw [reshape3, flatten3, flatten_chunksOf R hR, flatten_chunksOf R hR]
  exact ⟨hrt, hrt, hrt, fun b i hi => grid_point_index_law b R i hi⟩

/-- C7, witness: the round-trip law and the lattice layout at R = 2,
evaluated on a concrete flat array and a concrete index. -/
theorem c7_witness :
    flatten3 (reshape3 2 [(1 : ℚ), 2, 3, 4, 5, 6, 7, 8]) = [1, 2, 3, 4, 5, 6, 7, 8]
  ∧ (create_flow_domain demoBounds 2).grid_points.getD 6 vzero
      = ⟨(create_flow_domain demoBounds 2).coords_x.getD 1 0,
         (create_flow_domain demoBounds 2).coords_y.getD 1 0,
         (create_flow_domain demoBounds 2).coords_z.getD 0 0⟩ :=
  ⟨(c7_reshape_round_trip 2 (by norm_num)).1 [1, 2, 3, 4, 5, 6, 7, 8],
   (c7_reshape_round_trip 2 (by norm_num)).2.2.2 demoBounds 6 (by norm_num)⟩

/- ### C5 / C10: nearest-neighbour lookups and the streamline tracer
(pinn_model.py lines 335-417) -/

/-- np.clip(np.searchsorted(coords, v, side="right") - 1, 0, n - 1) for the
sorted per-axis coordinate arrays: searchsorted with side="right" returns the
number of entries ≤ v; the Python -1 result for values below every entry is
clipped up to 0, which Nat subtraction already saturates to. -/
def nnIndex (cs : List ℚ) (v : ℚ) (n : Nat) : Nat :=
  min (n - 1) (cs.countP (fun c => decide (c ≤ v)) - 1)

def lookup3 {α : Type} (g : List (List (List α))) (d : α) (i j k : Nat) : α :=
  ((g.getD i []).getD j []).getD k d

/-- ndarray.shape[0], shape[1], shape[2] of a nested-list array. -/
def shape0 {α : Type} (g : List (List (List α))) : Nat := g.length

def shape1 {α : Type} (g : List (List (List α))) : Nat := (g.getD 0 []).length

def shape2 {α : Type} (g : List (List (List α))) : Nat :=
  ((g.getD 0 []).getD 0 []).length

/-- PINNFlowSolver._interpolate_velocity_pinn (lines 388-399): nearest
neighbour, one clamped index per axis. -/
def interpolate_velocity_pinn (dom : FlowDomain)
    (field : List (List (List V3))) (pt : V3) : V3 :=
  let i := nnIndex dom.coords_x pt.x (shape0 field)
  let j := nnIndex dom.coords_y pt.y (shape1 field)
  let k := nnIndex dom.coords_z pt.z (shape2 field)
  lookup3 field vzero i j k

/-- PINNFlowSolver._interpolate_sdf_pinn (lines 401-410). -/
def interpolate_sdf_pinn (dom : FlowDomain)
    (sdf : List (List (List ℚ))) (pt : V3) : ℚ :=
  let i := nnIndex dom.coords_x pt.x (shape0 sdf)
  let j := nnIndex dom.coords_y pt.y (shape1 sdf)
  let k := nnIndex dom.coords_z pt.z (shape2 sdf)
  lookup3 sdf 0 i j k

/-- PINNFlowSolver._is_outside_domain (lines 412-417). -/
def is_outside_domain (dom : FlowDomain) (pt : V3) : Bool :=
  let bx := dom.domain_bounds.getD 0 (0, 0)
  let bu := dom.domain_bounds.getD 1 (0, 0)
  let bv := dom.domain_bounds.getD 2 (0, 0)
  decide (pt.x < bx.1) || decide (pt.x > bx.2) ||
  decide (pt.y < bu.1) || decide (pt.y > bu.2) ||
  decide (pt.z < bv.1) || decide (pt.z > bv.2)

def step_size : ℚ := 3 / 100

/-- The stagnation check ‖vel‖ < 0.005 embedded via squared norms. -/
def stagnation_threshold_sq : ℚ := (5 / 1000) ^ 2

/-- One RK4 advance of _trace_streamline_pinn (lines 371-377):
point + (h/6)(k1 + 2 k2 + 2 k3 + k4) with the velocity samples taken at
point, point + 0.5 h k1, point + 0.5 h k2, point + h k3. -/
def rk4_advance (dom : FlowDomain) (field : List (List (List V3)))
    (pt : V3) : V3 :=
  let k1 := interpolate_velocity_pinn dom field pt
  let k2 := interpolate_velocity_pinn dom field (vadd pt (smulV (1/2 * step_size) k1))
  let k3 := interpolate_velocity_pinn dom field (vadd pt (smulV (1/2 * step_size) k2))
  let k4 := interpolate_velocity_pinn dom field (vadd pt (smulV step_size k3))
  vadd pt (smulV (step_size / 6)
    (vadd k1 (vadd (smulV 2 k2) (vadd (smulV 2 k3) k4))))

/-- The loop body of _trace_streamline_pinn (lines 365-385), fuel = the
remaining iterations of `for step in range(max_steps)`; returns the points
appended after the seed. -/
def trace_streamline_aux (dom : FlowDomain) (field : List (List (List V3)))
    (sdf : List (List (List ℚ))) : Nat → V3 → List V3
  | 0, _ => []
  | fuel + 1, pt =>
    let vel := interpolate_velocity_pinn dom field pt
    if sqNormV3 vel < stagnation_threshold_sq then []
    else
      let ptN := rk4_advance dom field pt
      if is_outside_domain dom ptN
          || decide (interpolate_sdf_pinn dom sdf ptN < -(2/100)) then []
      else ptN :: trace_streamline_aux dom field sdf fuel ptN

/-- PINNFlowSolver._trace_streamline_pinn (lines 358-386): the streamline is
the seed followed by the appended points. -/
def trace_streamline_pinn (dom : FlowDomain) (field : List (List (List V3)))
    (sdf : List (List (List ℚ))) (start : V3) (max_steps : Nat) : List V3 :=
  start :: trace_streamline_aux dom field sdf max_steps start

/-- PINNFlowSolver._generate_streamlines_pinn (lines 335-356): 8×4 seed
points on the upstream x = x_min face, the first num_streamlines of them
traced with max_steps = 80, keeping only traces longer than 3 points. -/
def generate_streamlines_pinn (dom : FlowDomain)
    (field : List (List (List V3))) (sdf : List (List (List ℚ)))
    (num_streamlines : Nat) : List (List V3) :=
  let bx := dom.domain_bounds.getD 0 (0, 0)
  let bu := dom.domain_bounds.getD 1 (0, 0)
  let bv := dom.domain_bounds.getD 2 (0, 0)
  let y_coords := linspace bu.1 bu.2 8
  let z_coords := linspace bv.1 bv.2 4
  let seed_points := y_coords.flatMap (fun y => z_coords.map (fun z => V3.mk bx.1 y z))
  ((seed_points.take num_streamlines).map
      (fun seed => trace_streamline_pinn dom field sdf seed 80)).filter
    (fun st => decide (3 < st.length))

/-- The relation between consecutive retained streamline points: the next
point is the RK4 advance of the previous one, taken only when the previous
point was not stagnant and the advanced point neither left the domain nor
collided with the surface. -/
def streamStepRel (dom : FlowDomain) (field : List (List (List V3)))
    (sdf : List (List (List ℚ))) (a b : V3) : Prop :=
  b = rk4_advance dom field a
  ∧ ¬ sqNormV3 (interpolate_velocity_pinn dom field a) < stagnation_threshold_sq
  ∧ is_outside_domain dom b = false
  ∧ ¬ interpolate_sdf_pinn dom sdf b < -(2/100)

theorem trace_step_unfold (dom : FlowDomain) (field : List (List (List V3)))
    (sdf : List (List (List ℚ))) (fuel : Nat) (pt : V3) :
    trace_streamline_aux dom field sdf (fuel + 1) pt
      = (if sqNormV3 (interpolate_velocity_pinn dom field pt)
            < stagnation_threshold_sq then []
         else if is_outside_domain dom (rk4_advance dom field pt)
             || decide (interpolate_sdf_pinn dom sdf (rk4_advance dom field pt)
                  < -(2/100)) then []
         else rk4_advance dom field pt
                :: trace_streamline_aux dom field sdf fuel (rk4_advance dom field pt)) :=
  rfl

theorem trace_aux_length_le (dom : FlowDomain) (field : List (List (List V3)))
    (sdf : List (List (List ℚ))) :
    ∀ (fuel : Nat) (pt : V3),
      (trace_streamline_aux dom field sdf fuel pt).length ≤ fuel := by
  intro fuel
  induction fuel with
  | zero => intro pt; exact Nat.le_of_eq rfl
  | succ n ih =>
      intro pt
      rw [trace_step_unfold]
      split_ifs
      · simp
      · simp
      · rw [List.length_cons]
        exact Nat.succ_le_succ (ih _)

theorem trace_chain_aux (dom : FlowDomain) (field : List (List (List V3)))
    (sdf : List (List (List ℚ))) :
    ∀ (fuel : Nat) (pt : V3),
      List.Chain' (streamStepRel dom field sdf)
        (pt :: trace_streamline_aux dom field sdf fuel pt) := by
  intro fuel
  induction fuel with
  | zero => intro pt; exact List.chain'_singleton pt
  | succ n ih =>
      intro pt
      rw [trace_step_unfold]
      split_ifs with h1 h2
      · exact List.chain'_singleton pt
      · exact List.chain'_singleton pt
      · have h2' : is_outside_domain dom (rk4_advance dom field pt) = false
            ∧ ¬ interpolate_sdf_pinn dom sdf (rk4_advance dom field pt) < -(2/100) := by
          simp only [Bool.or_eq_true, decide_eq_true_eq, not_or,
            Bool.not_eq_true] at h2
          exact h2
        exact List.Chain'.cons ⟨rfl, h1, h2'.1, h2'.2⟩ (ih (rk4_advance dom field pt))

theorem generate_streamlines_all_bounded (dom : FlowDomain)
    (field : List (List (List V3))) (sdf : List (List (List ℚ))) :
    (generate_streamlines_pinn dom field sdf 30).all
      (fun st => decide (st.length ≤ 81) && decide (3 < st.length)) = true := by
  rw [List.all_eq_true]
  intro st hst
  simp only [generate_streamlines_pinn, List.mem_filter, List.mem_map,
    decide_eq_true_eq] at hst
  obtain ⟨⟨seed, hseed, rfl⟩, hlen⟩ := hst
  simp only [Bool.and_eq_true, decide_eq_true_eq]
  refine ⟨?_, hlen⟩
  simp only [trace_streamline_pinn, List.length_cons]
  exact Nat.succ_le_succ (trace_aux_length_le dom field sdf 80 seed)

/-- C5 (confirmed): for every seed point the tracer emits the seed first and
performs at most 80 RK4 advances of fixed step size 3/100 (at most 81 points
in all); each step first checks stagnation — interpolated velocity magnitude
below 0.005, squared-norm form — at the current point and stops without
advancing it, otherwise advances by RK4 and stops, appending nothing, when
the advanced point is outside the domain bounds or its interpolated SDF is
below −0.02; only on non-termination is the advanced point appended
(consecutive points are RK4 successors satisfying all retention conditions),
and the generator calls the tracer with max_steps = 80, keeping exactly the
traces longer than 3 points. -/
theorem c5_streamline_tracer_behaviour (dom : FlowDomain)
    (field : List (List (List V3))) (sdf : List (List (List ℚ))) (start : V3) :
    (trace_streamline_pinn dom field sdf start 80).head? = some start
  ∧ (trace_streamline_pinn dom field sdf start 80).length ≤ 81
  ∧ List.Chain' (streamStepRel dom field sdf)
      (trace_streamline_pinn dom field sdf start 80)
  ∧ (∀ (pt : V3) (n : Nat),
      trace_streamline_aux dom field sdf (n + 1) pt
        = (if sqNormV3 (interpolate_velocity_pinn dom field pt)
              < stagnation_threshold_sq then []
           else if is_outside_domain dom (rk4_advance dom field pt)
               || decide (interpolate_sdf_pinn dom sdf (rk4_advance dom field pt)
                    < -(2/100)) then []
           else rk4_advance dom field pt
                  :: trace_streamline_aux dom field sdf n (rk4_advance dom field pt)))
  ∧ (generate_streamlines_pinn dom field sdf 30).all
      (fun st => decide (st.length ≤ 81) && decide (3 < st.length)) = true := by
  refine ⟨rfl, ?_, trace_chain_aux dom field sdf 80 start,
    fun pt n => trace_step_unfold dom field sdf n pt,
    generate_streamlines_all_bounded dom field sdf⟩
  simp only [trace_streamline_pinn, List.length_cons]
  exact Nat.succ_le_succ (trace_aux_length_le dom field sdf 80 start)

/- ### C10: clamped nearest-neighbour lookups never index out of bounds -/

/-- Well-formedness of an R×R×R nested-list array. -/
def grid3_wf {α : Type} (g : List (List (List α))) (R : Nat) : Prop :=
  g.length = R ∧ ∀ pl ∈ g, pl.length = R ∧ ∀ row ∈ pl, row.length = R

theorem shape_of_wf {α : Type} (g : List (List (List α))) (R : Nat)
    (hR : 0 < R) (hw : grid3_wf g R) :
    shape0 g = R ∧ shape1 g = R ∧ shape2 g = R := by
  obtain ⟨hlen, hpl⟩ := hw
  have h0 : 0 < g.length := by rw [hlen]; exact hR
  have hp0 : g.getD 0 [] ∈ g := by
    rw [List.getD_eq_getElem _ _ h0]
    exact List.getElem_mem h0
  obtain ⟨hplen, hrow⟩ := hpl _ hp0
  have h1 : 0 < (g.getD 0 []).length := by rw [hplen]; exact hR
  have hr0 : (g.getD 0 []).getD 0 [] ∈ g.getD 0 [] := by
    rw [List.getD_eq_getElem _ _ h1]
    exact List.getElem_mem h1
  exact ⟨hlen, hplen, hrow _ hr0⟩

theorem nnIndex_lt (cs : List ℚ) (v : ℚ) (n : Nat) (hn : 0 < n) :
    nnIndex cs v n < n :=
  Nat.lt_of_le_of_lt (Nat.min_le_left _ _) (Nat.sub_lt hn Nat.one_pos)

theorem lookup3_mem {α : Type} (g : List (List (List α))) (d : α)
    (R i j k : Nat) (hw : grid3_wf g R) (hi : i < R) (hj : j < R) (hk : k < R) :
    lookup3 g d i j k ∈ g.flatten.flatten := by
  obtain ⟨hlen, hpl⟩ := hw
  have hig : i < g.length := by rw [hlen]; exact hi
  have hplm : g.getD i [] ∈ g := by
    rw [List.getD_eq_getElem _ _ hig]
    exact List.getElem_mem hig
  obtain ⟨hplen, hrow⟩ := hpl _ hplm
  have hjg : j < (g.getD i []).length := by rw [hplen]; exact hj
  have hrm : (g.getD i []).getD j [] ∈ g.getD i [] := by
    rw [List.getD_eq_getElem _ _ hjg]
    exact List.getElem_mem hjg
  have hrlen := hrow _ hrm
  have hkg : k < ((g.getD i []).getD j []).length := by rw [hrlen]; exact hk
  have hvm : lookup3 g d i j k ∈ (g.getD i []).getD j [] := by
    rw [lookup3, List.getD_eq_getElem _ _ hkg]
    exact List.getElem_mem hkg
  rw [List.mem_flatten]
  refine ⟨(g.getD i []).getD j [], ?_, hvm⟩
  rw [List.mem_flatten]
  exact ⟨g.getD i [], hplm, hrm⟩

/-- C10 (confirmed): for every query point — in particular points strictly
outside the padded domain, as arise at RK4 sub-steps before the exit check —
the nearest-neighbour velocity and SDF lookups clamp every computed axis
index into [0, R−1] and return a value stored in the R×R×R grid; no lookup
during streamline integration can index out of bounds. -/
theorem c10_lookups_always_in_bounds (dom : FlowDomain)
    (field : List (List (List V3))) (sdfg : List (List (List ℚ))) (R : Nat)
    (hR : 0 < R) (hf : grid3_wf field R) (hs : grid3_wf sdfg R) (pt : V3) :
    nnIndex dom.coords_x pt.x (shape0 field) < R
  ∧ nnIndex dom.coords_y pt.y (shape1 field) < R
  ∧ nnIndex dom.coords_z pt.z (shape2 field) < R
  ∧ interpolate_velocity_pinn dom field pt ∈ field.flatten.flatten
  ∧ interpolate_sdf_pinn dom sdfg pt ∈ sdfg.flatten.flatten := by
  obtain ⟨hf0, hf1, hf2⟩ := shape_of_wf field R hR hf
  obtain ⟨hs0, hs1, hs2⟩ := shape_of_wf sdfg R hR hs
  refine ⟨?_, ?_, ?_, ?_, ?_⟩
  · rw [hf0]; exact nnIndex_lt _ _ _ hR
  · rw [hf1]; exact nnIndex_lt _ _ _ hR
  · rw [hf2]; exact nnIndex_lt _ _ _ hR
  · refine lookup3_mem field vzero R _ _ _ hf ?_ ?_ ?_
    · rw [hf0]; exact nnIndex_lt _ _ _ hR
    · rw [hf1]; exact nnIndex_lt _ _ _ hR
    · rw [hf2]; exact nnIndex_lt _ _ _ hR
  · refine lookup3_mem sdfg 0 R _ _ _ hs ?_ ?_ ?_
    · rw [hs0]; exact nnIndex_lt _ _ _ hR
    · rw [hs1]; exact nnIndex_lt _ _ _ hR
    · rw [hs2]; exact nnIndex_lt _ _ _ hR

def witnessDom : FlowDomain := create_flow_domain demoBounds 1

def witnessField : List (List (List V3)) := [[[⟨1, 2, 3⟩]]]

def witnessSdf : List (List (List ℚ)) := [[[5]]]

/-- C10, witness: at a query point far outside the 1×1×1 grid's domain, both
lookups still return stored grid values. -/
theorem c10_witness :
    interpolate_velocity_pinn witnessDom witnessField ⟨100, -100, 100⟩
      ∈ witnessField.flatten.flatten
  ∧ interpolate_sdf_pinn witnessDom witnessSdf ⟨100, -100, 100⟩
      ∈ witnessSdf.flatten.flatten :=
  ⟨(c10_lookups_always_in_bounds witnessDom witnessField witnessSdf 1
      (by norm_num) (by simp [grid3_wf, witnessField]) (by simp [grid3_wf, witnessSdf])
      ⟨100, -100, 100⟩).2.2.2.1,
   (c10_lookups_always_in_bounds witnessDom witnessField witnessSdf 1
      (by norm_num) (by simp [grid3_wf, witnessField]) (by simp [grid3_wf, witnessSdf])
      ⟨100, -100, 100⟩).2.2.2.2⟩

/- ### C6: the no-slip and far-field penalties of compute_physics_loss
(pinn_model.py lines 148-155) -/

/-- One model output row (u, v, w, p). -/
structure Pred4 where
  u : ℚ
  v : ℚ
  w : ℚ
  p : ℚ
deriving DecidableEq, Repr

/-- One flow-conditions row [velocity_x, velocity_y, velocity_z, viscosity]. -/
structure Cond4 where
  vx : ℚ
  vy : ℚ
  vz : ℚ
  visc : ℚ
deriving DecidableEq, Repr

/-- torch.mean of a flattened tensor. -/
def meanQ (l : List ℚ) : ℚ := l.sum / l.length

/-- Lines 149-151: boundary_mask = |sdf| < 0.05, velocity = predictions[:, :3],
then torch.mean(velocity[boundary_mask] ** 2) if boundary_mask.any() else 0.
The mean of the selected k×3 block averages over all 3k squared entries. -/
def boundary_velocity_loss (preds : List Pred4) (sdf : List ℚ) : ℚ :=
  let sel := (preds.zip sdf).filter (fun r => decide (|r.2| < 5/100))
  if sel.isEmpty then 0
  else meanQ (sel.flatMap (fun r => [r.1.u ^ 2, r.1.v ^ 2, r.1.w ^ 2]))

/-- Lines 153-155: freestream_velocity = flow_conditions[:, :3],
farfield_mask = sdf > 1.0, then
torch.mean((velocity[mask] - freestream_velocity[mask]) ** 2) if mask.any()
else 0. -/
def farfield_velocity_loss (preds : List Pred4) (conds : List Cond4)
    (sdf : List ℚ) : ℚ :=
  let sel := ((preds.zip conds).zip sdf).filter (fun r => decide (r.2 > 1))
  if sel.isEmpty then 0
  else meanQ (sel.flatMap (fun r =>
    [(r.1.1.u - r.1.2.vx) ^ 2, (r.1.1.v - r.1.2.vy) ^ 2, (r.1.1.w - r.1.2.vz) ^ 2]))

/-- The near-surface penalty as the spec words it: the mean, over exactly the
points with |SDF| < 0.05, of their squared velocity components. -/
def spec_boundary_penalty (preds : List Pred4) (sdf : List ℚ) : ℚ :=
  let sel := (preds.zip sdf).filter (fun r => decide (|r.2| < 5/100))
  if sel.isEmpty then 0
  else (sel.map (fun r => r.1.u ^ 2 + r.1.v ^ 2 + r.1.w ^ 2)).sum
        / (3 * (sel.length : ℚ))

/-- The far-field penalty as the spec words it: the mean, over exactly the
points with SDF > 1.0, of the squared deviation of velocity from the
free-stream velocity. -/
def spec_farfield_penalty (preds : List Pred4) (conds : List Cond4)
    (sdf : List ℚ) : ℚ :=
  let sel := ((preds.zip conds).zip sdf).filter (fun r => decide (r.2 > 1))
  if sel.isEmpty then 0
  else (sel.map (fun r => (r.1.1.u - r.1.2.vx) ^ 2 + (r.1.1.v - r.1.2.vy) ^ 2
          + (r.1.1.w - r.1.2.vz) ^ 2)).sum / (3 * (sel.length : ℚ))

theorem sum_flatMap_triple {α : Type} (l : List α) (f g h : α → ℚ) :
    (l.flatMap (fun a => [f a, g a, h a])).sum
      = (l.map (fun a => f a + g a + h a)).sum := by
  induction l with
  | nil => rfl
  | cons a tl ih =>
      rw [List.flatMap_cons, List.sum_append, ih, List.map_cons, List.sum_cons]
      simp [List.sum_cons]
      ring

theorem meanQ_flatMap_triple {α : Type} (l : List α) (f g h : α → ℚ) :
    meanQ (l.flatMap (fun a => [f a, g a, h a]))
      = (l.map (fun a => f a + g a + h a)).sum / (3 * (l.length : ℚ)) := by
  rw [meanQ, sum_flatMap_triple,
    length_flatMap_const l (fun a => [f a, g a, h a]) 3 (fun a _ => rfl)]
  push_cast
  ring_nf

/-- C6 (confirmed): the near-surface no-slip penalty equals the batch mean of
the squared velocity components over exactly the points with |SDF| < 0.05,
the far-field penalty equals the batch mean of the squared deviation of
velocity from the free-stream velocity over exactly the points with
SDF > 1.0, and each penalty is 0 when no point satisfies its mask. -/
theorem c6_physics_loss_penalties (preds : List Pred4) (conds : List Cond4)
    (sdf : List ℚ) :
    boundary_velocity_loss preds sdf = spec_boundary_penalty preds sdf
  ∧ farfield_velocity_loss preds conds sdf = spec_farfield_penalty preds conds sdf
  ∧ ((preds.zip sdf).filter (fun r => decide (|r.2| < 5/100)) = [] →
      boundary_velocity_loss preds sdf = 0)
  ∧ (((preds.zip conds).zip sdf).filter (fun r => decide (r.2 > 1)) = [] →
      farfield_velocity_loss preds conds sdf = 0) := by
  refine ⟨?_, ?_, ?_, ?_⟩
  · rw [boundary_velocity_loss, spec_boundary_penalty, meanQ_flatMap_triple]
  · rw [farfield_velocity_loss, spec_farfield_penalty, meanQ_flatMap_triple]
  · intro h
    rw [boundary_velocity_loss, h]
    simp
  · intro h
    rw [farfield_velocity_loss, h]
    simp

/-- C6, witness: with one far-from-surface point the no-slip mask is empty
and that penalty is 0, discharged through the main theorem. -/
theorem c6_witness :
    boundary_velocity_loss [⟨1, 2, 3, 4⟩] [10] = 0 :=
  (c6_physics_loss_penalties [⟨1, 2, 3, 4⟩] [] [10]).2.2.1 (by
    rw [List.filter_eq_nil_iff]
    intro r hr
    simp only [List.zip_cons_cons, List.zip_nil_right, List.mem_singleton] at hr
    subst hr
    norm_num)

/- ### C8: direction normalization (predict_flow_field lines 204-207;
_compute_flow_field, simulation_endpoints.py lines 242-244, is identical) -/

/-- flow_dir = flow_dir / np.linalg.norm(flow_dir).  The euclidean norm is
irrational in general, so the computed norm value n is an explicit argument,
characterized in the theorems by n² = sqNormV3 d.  Rational division by zero
yields 0 where numpy yields NaN; in both semantics the result at the zero
vector is not a unit vector. -/
def normalize_direction (d : V3) (n : ℚ) : V3 := ⟨d.x / n, d.y / n, d.z / n⟩

/-- freestream_velocity = flow_vel * flow_dir (line 207). -/
def freestream_velocity (vel : ℚ) (nd : V3) : V3 := smulV vel nd

/-- C8, counterexample.  The claim quantifies over any direction vector of
any magnitude.  For the zero vector the code computes norm 0 and divides by
it: the resulting direction has squared norm 0 (NaN in float semantics),
which fails unit length within 1e-6 — that would require squared norm at
least (1 − 1e-6)² — and no validation rejects the zero vector. -/
theorem c8_counterexample_zero_direction :
    (0 : ℚ) ^ 2 = sqNormV3 vzero
  ∧ sqNormV3 (normalize_direction vzero 0) = 0
  ∧ ¬ ((1 - 1/1000000) ^ 2 ≤ sqNormV3 (normalize_direction vzero 0)) := by
  norm_num [sqNormV3, normalize_direction, vzero]

theorem sqNormV3_eq_zero_iff (d : V3) : sqNormV3 d = 0 ↔ d = vzero := by
  constructor
  · intro h0
    rw [sqNormV3] at h0
    have hx : d.x = 0 := by nlinarith [sq_nonneg d.x, sq_nonneg d.y, sq_nonneg d.z]
    have hy : d.y = 0 := by nlinarith [sq_nonneg d.x, sq_nonneg d.y, sq_nonneg d.z]
    have hz : d.z = 0 := by nlinarith [sq_nonneg d.x, sq_nonneg d.y, sq_nonneg d.z]
    cases d
    rw [vzero]
    simp_all
  · intro h
    rw [h]
    norm_num [sqNormV3, vzero]

theorem sqNormV3_smulV (c : ℚ) (v : V3) :
    sqNormV3 (smulV c v) = c ^ 2 * sqNormV3 v := by
  rw [sqNormV3, smulV, sqNormV3]
  ring

/-- C8, amended: for every nonzero caller-supplied direction vector (any
magnitude) the direction the solver uses is normalized to exactly unit
length under exact arithmetic — in particular within 1e-6 — before the
free-stream velocity is formed from it, and the free-stream velocity then
has squared norm velocity²; the zero direction vector, however, is not
rejected and yields a non-unit direction. -/
theorem c8_amended_nonzero_direction_normalized (d : V3) (n vel : ℚ)
    (hn : n ^ 2 = sqNormV3 d) (hd : d ≠ vzero) :
    sqNormV3 (normalize_direction d n) = 1
  ∧ sqNormV3 (freestream_velocity vel (normalize_direction d n)) = vel ^ 2 := by
  have hs0 : sqNormV3 d ≠ 0 := fun h => hd ((sqNormV3_eq_zero_iff d).1 h)
  have hn0 : n ≠ 0 := by
    intro h
    rw [h] at hn
    exact hs0 (by rw [← hn]; norm_num)
  have h1 : sqNormV3 (normalize_direction d n) = sqNormV3 d / n ^ 2 := by
    rw [sqNormV3, normalize_direction, sqNormV3]
    field_simp
  have h2 : sqNormV3 (normalize_direction d n) = 1 := by
    rw [h1, ← hn, div_self (pow_ne_zero 2 hn0)]
  refine ⟨h2, ?_⟩
  rw [freestream_velocity, sqNormV3_smulV, h2, mul_one]

/-- C8, witness: the direction (3, 4, 0) has norm 5 and normalizes to unit
squared norm, via the amended theorem. -/
theorem c8_amended_witness :
    sqNormV3 (normalize_direction ⟨3, 4, 0⟩ 5) = 1 :=
  (c8_amended_nonzero_direction_normalized ⟨3, 4, 0⟩ 5 2
    (by norm_num [sqNormV3]) (by norm_num [vzero])).1

end FluidBackend
